import Mathlib

/-!
Verification of the QMCSoftware adaptive sampling engine specification.

The repository ships the engine through the `qmcpy` package; the tree
available here contains the package's demo notebooks, which record the
engine's configuration, call sites and printed results.  The engine
itself (sequence generators, accumulators, error estimators and stopping
criteria) is therefore modelled from the specification, faithful to its
words, and checked against the behaviour recorded in the notebooks.

Real-valued data is embedded as `ℚ` wherever the computation is exact
arithmetic, and as `ℝ` where square roots occur (error bounds).
-/

namespace QMCPy

/-- Modelled from the spec: the generator implementation family selector
(run-configuration option `backend`, section 6); the notebooks use the
MPS and GAIL families. -/
inductive Backend
  | MPS
  | GAIL
deriving DecidableEq

/-- Modelled from the spec: the three sequence-generator variants of
section 4.1 (independent-uniform, rank-1 lattice, digital Sobol). -/
inductive Variant
  | iid
  | lattice
  | sobol
deriving DecidableEq

/-- Modelled from the spec: a generator configuration -- dimension, seed,
scramble flag, backend, variant (sections 4.1 and 6). -/
structure GenConfig where
  dimension : ℕ
  seed : Option ℕ
  scramble : Bool
  backend : Backend
  variant : Variant
deriving DecidableEq

/-- Modelled from the spec: one step of the seeded pseudo-random stream
used for the independent-uniform variant and for randomization state
(section 4.1); a linear congruential generator modulo 2^31. -/
def lcg_step (s : ℕ) : ℕ := (1103515245 * s + 12345) % 2 ^ 31

/-- Iterated pseudo-random stream: state after k steps from seed s. -/
def lcg_iter (s : ℕ) : ℕ → ℕ
  | 0 => s % 2 ^ 31
  | k + 1 => lcg_step (lcg_iter s k)

/-- Draw k-th variate of the seeded stream, scaled to the unit interval. -/
def unit_rand (s k : ℕ) : ℚ := (lcg_iter s (k + 1) : ℚ) / 2 ^ 31

/-- Base-2 radical-inverse (van der Corput) value of an index. -/
def vdc2 : ℕ → ℚ
  | 0 => 0
  | n + 1 => (((n + 1) % 2 : ℕ) + vdc2 ((n + 1) / 2)) / 2
decreasing_by omega

/-- Modelled from the spec: the fixed integer generating vector of the
rank-1 lattice (section 4.1), one published-style table per backend
(section 9 leaves the exact table open). -/
def gen_vec : Backend → ℕ → ℕ
  | Backend.MPS, j => [1, 182667, 302247, 433461].getD (j % 4) 1
  | Backend.GAIL, j => [1, 100135, 154805, 218273].getD (j % 4) 1

/-- Modelled from the spec: direction numbers for the digital Sobol-type
construction (section 4.1), coordinate j, bit k, in base 2 with 31 bits. -/
def dir_num (j k : ℕ) : ℕ := ((2 * j + 1) * 2 ^ (30 - k)) % 2 ^ 31

/-- Digital construction: XOR of the direction numbers selected by the
set bits of the index, on top of a digital shift. -/
def sobol_nat (dshift j i : ℕ) : ℕ :=
  (List.range 31).foldl (fun acc k => if i.testBit k then Nat.xor acc (dir_num j k) else acc) dshift

/-- Modelled from the spec: a constructed generator instance; the
RandomizationState (here: the effective stream seed) is drawn once at
construction, from the configured seed or from entropy if unseeded
(section 3), and is immutable for the generator's lifetime. -/
structure Generator where
  cfg : GenConfig
  rstate : ℕ
deriving DecidableEq

/-- Construct a generator: seeded configurations ignore the entropy
source; unseeded ones draw their randomization state from it. -/
def construct (entropy : ℕ) (cfg : GenConfig) : Generator :=
  { cfg := cfg, rstate := cfg.seed.getD entropy }

/-- Per-coordinate random shift for the scrambled lattice (zero when the
scramble flag is off). -/
def shift_of (g : Generator) (j : ℕ) : ℚ :=
  if g.cfg.scramble then unit_rand g.rstate j else 0

/-- Per-coordinate digital shift for the scrambled Sobol variant (zero
when the scramble flag is off). -/
def dshift_of (g : Generator) (j : ℕ) : ℕ :=
  if g.cfg.scramble then lcg_iter g.rstate (j + 1) else 0

/-- Modelled from the spec: the point of the sequence at a given index
(section 4.1).  Every variant is a pure function of the configuration,
the randomization state and the index alone: independent-uniform reads
the seeded stream, the rank-1 lattice takes the fractional part of the
radical-inverse multiple of the generating vector plus the random shift
(the extensible ordering of the lattice, so the section 3 data-model
invariant holds), and the Sobol variant applies the digital
construction. -/
def point (g : Generator) (i : ℕ) : List ℚ :=
  match g.cfg.variant with
  | Variant.iid =>
      (List.range g.cfg.dimension).map
        (fun j => unit_rand g.rstate (i * g.cfg.dimension + j))
  | Variant.lattice =>
      (List.range g.cfg.dimension).map
        (fun j => Int.fract (vdc2 i * (gen_vec g.cfg.backend j : ℚ) + shift_of g j))
  | Variant.sobol =>
      (List.range g.cfg.dimension).map
        (fun j => ((sobol_nat (dshift_of g j) j i : ℕ) : ℚ) / 2 ^ 31)

/-- Modelled from the spec: `generate(index_range) -> SampleBatch` for the
contiguous index range from n_min (inclusive) to n_max (exclusive)
(section 4.1); the batch lists the sequence's points in index order. -/
def gen_samples (g : Generator) (n_min n_max : ℕ) : List (List ℚ) :=
  (List.range (n_max - n_min)).map (fun k => point g (n_min + k))

/-- Terminal conditions of the stopping-criterion controller
(sections 4.5 and 7): convergence, or budget exhaustion
(`ToleranceNotAchieved`). -/
inductive Condition
  | converged
  | toleranceNotAchieved
deriving DecidableEq

/-- Mean of a list of values (numpy-style: sum over length). -/
def qmean (vs : List ℚ) : ℚ := vs.sum / vs.length

/-- Population variance of a list of values, computed from the running
sum and sum of squares as the accumulator stores them. -/
def qvar (vs : List ℚ) : ℚ := (vs.map (fun x => x ^ 2)).sum / vs.length - (qmean vs) ^ 2

/-- Modelled from the spec: RunningStatistics of the accumulator --
count of evaluations, running sum, running sum of squares
(sections 3 and 4.3). -/
structure MeanVarState where
  n : ℕ
  vsum : ℚ
  vsumsq : ℚ
deriving DecidableEq

/-- Virgin accumulator state at the start of a run. -/
def MeanVarState.virgin : MeanVarState := ⟨0, 0, 0⟩

/-- Modelled from the spec: `fold(values)` mutates RunningStatistics by
count += n, sum += Σvalues, sum_of_squares += Σvalues² (section 4.3). -/
def MeanVarState.fold (st : MeanVarState) (vs : List ℚ) : MeanVarState :=
  ⟨st.n + vs.length, st.vsum + vs.sum, st.vsumsq + (vs.map (fun x => x ^ 2)).sum⟩

/-- Sample mean read off the accumulator state. -/
def MeanVarState.mean (st : MeanVarState) : ℚ := st.vsum / st.n

/-- Sample variance read off the accumulator state (sum of squares over
the count, minus the squared mean). -/
def MeanVarState.variance (st : MeanVarState) : ℚ :=
  st.vsumsq / st.n - (st.vsum / st.n) ^ 2

/-- Sample standard deviation read off the accumulator state. -/
noncomputable def MeanVarState.std (st : MeanVarState) : ℝ :=
  Real.sqrt st.variance

/-- Modelled from the spec: the CLT error-estimator bound
`inflate * z(alpha/2) * std / sqrt(n)` (section 4.4); the standard-normal
quantile z at the configured confidence level enters as a configured
rational value. -/
noncomputable def clt_bound (inflate z : ℚ) (st : MeanVarState) : ℝ :=
  inflate * z * st.std / Real.sqrt st.n

/-- Modelled from the spec: the ErrorCertificate produced by the CLT
variant of the error estimator -- the pair of the estimated value and the
error bound (sections 3 and 4.4). -/
noncomputable def clt_certificate (inflate z : ℚ) (st : MeanVarState) : ℝ × ℝ :=
  ((st.mean : ℝ), clt_bound inflate z st)

/-- Modelled from the spec: the CLT stopping-criterion configuration --
inflation factor, normal quantile z(alpha/2) for the configured alpha,
tolerances, initial and maximal sample sizes (sections 3 and 6; the
notebook run uses inflate 1.2, alpha 0.01, n_init 1024, n_max 1e10). -/
structure CLTConfig where
  inflate : ℚ
  z : ℚ
  abs_tol : ℚ
  rel_tol : ℚ
  n_init : ℕ
  n_max : ℕ
deriving DecidableEq

/-- Tolerance actually enforced: `max(abs_tol, rel_tol * |estimate|)`
(section 4.5). -/
def clt_tol (cfg : CLTConfig) (est : ℚ) : ℚ :=
  max cfg.abs_tol (cfg.rel_tol * |est|)

/-- Pilot batch of integrand values: the first n_init entries of the
evaluated-sample stream. -/
def pilot_values (cfg : CLTConfig) (values : ℕ → ℚ) : List ℚ :=
  (List.range cfg.n_init).map values

/-- Modelled from the spec: the follow-up sample count the CLT criterion
requests after the pilot stage, `max(1, ceil((inflate * z * std / tol)^2))`
written without the square root as `max(1, ceil((inflate * z / tol)^2 * var))`;
the demo notebook records exactly this two-stage shape (n 3305,
n_total 4329 = 1024 + 3305). -/
def clt_wanted (cfg : CLTConfig) (values : ℕ → ℚ) : ℕ :=
  max 1 (Int.toNat ⌈(cfg.inflate * cfg.z / clt_tol cfg (qmean (pilot_values cfg values))) ^ 2
    * qvar (pilot_values cfg values)⌉)

/-- Modelled from the spec: the MeanVarData record the CLT run reports --
follow-up count n, total count n_total, solution, pilot variance and the
terminal condition (sections 3, 4.5 and 7; field layout follows the
notebook's printed MeanVarData object). -/
structure CLTRun where
  n : ℕ
  n_total : ℕ
  solution : ℚ
  pilot_variance : ℚ
  condition : Condition
deriving DecidableEq

/-- Modelled from the spec: the CLT stopping criterion's integrate run
over an evaluated-sample stream.  A pilot batch of n_init values fixes
the variance estimate; the criterion then requests `clt_wanted` further
samples at the fresh indices only (capped so the total never exceeds
n_max, in which case the run ends in `ToleranceNotAchieved`, still
carrying the solution), and reports the mean of the follow-up batch
(sections 4.4, 4.5 and 7, and the recorded notebook runs). -/
def CLT_integrate (cfg : CLTConfig) (values : ℕ → ℚ) : CLTRun :=
  let w := clt_wanted cfg values
  let n2 := if cfg.n_init + w ≤ cfg.n_max then w else cfg.n_max - cfg.n_init
  { n := n2
    n_total := cfg.n_init + n2
    solution := qmean ((List.range n2).map (fun k => values (cfg.n_init + k)))
    pilot_variance := qvar (pilot_values cfg values)
    condition := if cfg.n_init + w ≤ cfg.n_max then Condition.converged
      else Condition.toleranceNotAchieved }

/-- Error bound the run reports: the CLT bound computed from the pilot
standard deviation and the follow-up count. -/
noncomputable def CLTRun.err_bar (cfg : CLTConfig) (r : CLTRun) : ℝ :=
  (cfg.inflate : ℝ) * cfg.z * Real.sqrt r.pilot_variance / Real.sqrt r.n

/-- Lower end of the reported confidence interval. -/
noncomputable def CLTRun.confid_lo (cfg : CLTConfig) (r : CLTRun) : ℝ :=
  (r.solution : ℝ) - r.err_bar cfg

/-- Upper end of the reported confidence interval. -/
noncomputable def CLTRun.confid_hi (cfg : CLTConfig) (r : CLTRun) : ℝ :=
  (r.solution : ℝ) + r.err_bar cfg

/-- Modelled from the spec: the doubling control loop of section 4.5,
generic over the certificate bound and estimate as functions of the
current sample count.  It stops as soon as the bound meets the tolerance
(`Converged`), doubles the count while the doubled count stays within the
budget, and otherwise stops with `ToleranceNotAchieved`.  Defined by
well-founded recursion on the remaining budget, so the loop terminates
for every input. -/
def doubling_loop (tol : ℚ) (bound : ℕ → ℚ) (n_max : ℕ) (n : ℕ) (h : 0 < n) :
    ℕ × Condition :=
  if bound n ≤ tol then (n, Condition.converged)
  else if h2 : 2 * n ≤ n_max then doubling_loop tol bound n_max (2 * n) (by omega)
  else (n, Condition.toleranceNotAchieved)
termination_by n_max - n
decreasing_by omega

/-- Modelled from the spec: the Solution record the doubling controller
emits at termination -- final sample count, estimated value, final
certificate bound and terminal condition (sections 3 and 4.5). -/
structure DoublingResult where
  n : ℕ
  solution : ℚ
  bound : ℚ
  condition : Condition
deriving DecidableEq

/-- Run the doubling controller from n_init and package the Solution,
including the best-so-far estimate and certificate on failure. -/
def doubling_integrate (tol : ℚ) (est bound : ℕ → ℚ) (n_max n_init : ℕ)
    (h : 0 < n_init) : DoublingResult :=
  { n := (doubling_loop tol bound n_max n_init h).1
    solution := est (doubling_loop tol bound n_max n_init h).1
    bound := bound (doubling_loop tol bound n_max n_init h).1
    condition := (doubling_loop tol bound n_max n_init h).2 }

/-- Modelled from the spec: what the user function may return for a
batch -- one value per row, or a single scalar (section 4.2). -/
inductive UserOutput
  | scalar (v : ℚ)
  | vector (vs : List ℚ)
deriving DecidableEq

/-- Modelled from the spec: the evaluator's failure taxonomy entry
`IntegrandShapeError`, carrying the offending batch size and returned
length (sections 4.2 and 7). -/
inductive EvalError
  | integrandShapeError (batch_size returned : ℕ)
deriving DecidableEq

/-- Modelled from the spec: `evaluate(batch)` of the integrand evaluator
(section 4.2) -- apply the measure transform to the unit-cube batch, then
the user function to the transformed batch; validate that the output
length equals the batch size, broadcasting a scalar result only for a
single-row batch, and fail with `IntegrandShapeError` otherwise. -/
def evaluate (tf : List ℚ → List ℚ) (uf : List (List ℚ) → UserOutput)
    (batch : List (List ℚ)) : Except EvalError (List ℚ) :=
  match uf (batch.map tf) with
  | UserOutput.scalar v =>
      if batch.length = 1 then Except.ok [v]
      else Except.error (EvalError.integrandShapeError batch.length 1)
  | UserOutput.vector vs =>
      if vs.length = batch.length then Except.ok vs
      else Except.error (EvalError.integrandShapeError batch.length vs.length)

/-- Shape contract of one evaluator call: a successful result has
exactly one value per batch row, and a failure is an
`IntegrandShapeError` recording the batch size together with a returned
length that differs from it. -/
def shape_report : Except EvalError (List ℚ) → ℕ → Bool
  | Except.ok vs, n => vs.length == n
  | Except.error (EvalError.integrandShapeError nb m), n => nb == n && m != n

/-- Success flag of an evaluator call. -/
def succeeded : Except EvalError (List ℚ) → Bool
  | Except.ok _ => true
  | Except.error _ => false

/-- Broadcast contract of one evaluator call: when the user function
returned a scalar, the call succeeds exactly when the batch has a single
row. -/
def broadcast_report (out : UserOutput) (r : Except EvalError (List ℚ)) (n : ℕ) : Bool :=
  match out with
  | UserOutput.scalar _ => succeeded r == (n == 1)
  | UserOutput.vector _ => true

/-- Concrete generator configuration used to instantiate proved
properties: the notebook's Lattice(dimension=2, scramble=True, seed=7,
backend=MPS). -/
def cfg_demo : GenConfig :=
  { dimension := 2, seed := some 7, scramble := true
    backend := Backend.MPS, variant := Variant.lattice }

/-- Concrete generator instance built from `cfg_demo` (the entropy
argument is irrelevant for a seeded configuration). -/
def gen_demo : Generator := construct 0 cfg_demo

/-- Concrete CLT configuration used to instantiate proved properties
(small counts keep the arithmetic evaluable). -/
def cfg_small : CLTConfig :=
  { inflate := 1, z := 1, abs_tol := 1 / 10, rel_tol := 0, n_init := 2, n_max := 100 }

/-- Concrete evaluated-sample stream used to instantiate proved
properties: alternating 0 and 1. -/
def vals_alt : ℕ → ℚ := fun k => if k % 2 = 0 then 0 else 1

/-- Concrete estimate function used to instantiate the doubling
controller. -/
def est_w : ℕ → ℚ := fun _ => 5

/-- Concrete certificate-bound function used to instantiate the doubling
controller: the bound stays at 1 for every sample count. -/
def bound_w : ℕ → ℚ := fun _ => 1

theorem gen_samples_from_zero (g : Generator) (m : ℕ) :
    gen_samples g 0 m = (List.range m).map (fun k => point g k) := by
  simp [gen_samples]

/-- Claim C1: for every generator configuration (any dimension, seed,
scramble state, backend and variant) and every n ≥ 1, the batch for the
index range from 0 to n is an element-for-element initial segment of the
batch for the range from 0 to 2n -- and a proper one, the longer batch
having 2n > n elements -- so extending a run never changes the first n
points. -/
theorem gen_samples_extension_keeps_first (g : Generator) (n : ℕ) (h : 1 ≤ n) :
    gen_samples g 0 n = (gen_samples g 0 (2 * n)).take n ∧
    n < (gen_samples g 0 (2 * n)).length := by
  constructor
  · rw [gen_samples_from_zero, gen_samples_from_zero,
      show 2 * n = n + n by ring, List.range_add, List.map_append,
      List.take_left' (by simp)]
  · rw [gen_samples_from_zero]
    simp only [List.length_map, List.length_range]
    omega

/-- Witness for C1 at the notebook's lattice generator and n = 2. -/
theorem gen_samples_extension_keeps_first_witness :
    1 ≤ 2 ∧
    (gen_samples gen_demo 0 2 = (gen_samples gen_demo 0 (2 * 2)).take 2 ∧
      2 < (gen_samples gen_demo 0 (2 * 2)).length) :=
  ⟨by decide, gen_samples_extension_keeps_first gen_demo 2 (by decide)⟩

/-- Claim C5: two generator instances constructed from the same seeded
configuration (same dimension, seed, scramble flag, backend and variant)
produce identical sample batches on every identical index range,
whatever entropy source was available at construction. -/
theorem construct_deterministic (e₁ e₂ : ℕ) (cfg : GenConfig) (s : ℕ)
    (hs : cfg.seed = some s) (n_min n_max : ℕ) :
    gen_samples (construct e₁ cfg) n_min n_max
      = gen_samples (construct e₂ cfg) n_min n_max := by
  simp [construct, hs]

/-- Witness for C5 at the notebook's seeded lattice configuration and
two different entropy sources. -/
theorem construct_deterministic_witness :
    cfg_demo.seed = some 7 ∧
    gen_samples (construct 0 cfg_demo) 0 3 = gen_samples (construct 99 cfg_demo) 0 3 :=
  ⟨rfl, construct_deterministic 0 99 cfg_demo 7 rfl 0 3⟩

/-- Claim C9: the total sample count a CLT run reports equals the
configured pilot count n_init plus the follow-up count n reported
alongside it. -/
theorem clt_total_is_pilot_plus_followup (cfg : CLTConfig) (values : ℕ → ℚ) :
    (CLT_integrate cfg values).n_total = cfg.n_init + (CLT_integrate cfg values).n := rfl

/-- Claim C8: the integrand evaluator returns exactly one value per
batch row on success; a scalar user result is broadcast exactly when the
batch has a single row; and every failure is an IntegrandShapeError
carrying the batch size and a returned length that differs from it. -/
theorem evaluate_shape_contract (tf : List ℚ → List ℚ)
    (uf : List (List ℚ) → UserOutput) (batch : List (List ℚ)) :
    shape_report (evaluate tf uf batch) batch.length = true ∧
    broadcast_report (uf (batch.map tf)) (evaluate tf uf batch) batch.length = true := by
  rcases h : uf (batch.map tf) with v | vs
  · by_cases hb : batch.length = 1
    · simp [evaluate, h, shape_report, broadcast_report, succeeded, hb]
    · simp [evaluate, h, shape_report, broadcast_report, succeeded, hb]
      omega
  · by_cases hv : vs.length = batch.length <;>
      simp [evaluate, h, shape_report, broadcast_report, succeeded, hv]

theorem doubling_loop_count_le (tol : ℚ) (bound : ℕ → ℚ) (n_max : ℕ) :
    ∀ (n : ℕ) (h : 0 < n), n ≤ n_max →
      (doubling_loop tol bound n_max n h).1 ≤ n_max := by
  intro n h
  induction n, h using doubling_loop.induct tol bound n_max with
  | case1 n h hb =>
    intro hle
    unfold doubling_loop
    simp only [if_pos hb]
    exact hle
  | case2 n h hb h2 ih =>
    intro hle
    unfold doubling_loop
    simp only [if_neg hb, dif_pos h2]
    exact ih (by omega)
  | case3 n h hb h2 =>
    intro hle
    unfold doubling_loop
    simp only [if_neg hb, dif_neg h2]
    exact hle

theorem doubling_loop_exhausts (tol : ℚ) (bound : ℕ → ℚ) (n_max : ℕ) :
    ∀ (n : ℕ) (h : 0 < n), n ≤ n_max → (∀ m, m ≤ n_max → tol < bound m) →
      (doubling_loop tol bound n_max n h).2 = Condition.toleranceNotAchieved := by
  intro n h
  induction n, h using doubling_loop.induct tol bound n_max with
  | case1 n h hb =>
    intro hle hall
    exact absurd hb (not_le.mpr (hall n hle))
  | case2 n h hb h2 ih =>
    intro hle hall
    unfold doubling_loop
    simp only [if_neg hb, dif_pos h2]
    exact ih h2 hall
  | case3 n h hb h2 =>
    intro hle hall
    unfold doubling_loop
    simp only [if_neg hb, dif_neg h2]

/-- Claim C4: when the certificate bound stays above tolerance for every
sample count the budget admits, the doubling controller still terminates
(it is a total function, defined by well-founded recursion on the
remaining budget), ends in the ToleranceNotAchieved condition rather
than a crash, never exceeds n_max samples, and still reports the
best-so-far estimate together with its certificate bound. -/
theorem doubling_budget_exhaustion (tol : ℚ) (est bound : ℕ → ℚ)
    (n_max n_init : ℕ) (h : 0 < n_init) (hle : n_init ≤ n_max)
    (hall : ∀ m, m ≤ n_max → tol < bound m) :
    (doubling_integrate tol est bound n_max n_init h).condition
        = Condition.toleranceNotAchieved ∧
    (doubling_integrate tol est bound n_max n_init h).n ≤ n_max ∧
    (doubling_integrate tol est bound n_max n_init h).solution
        = est ((doubling_integrate tol est bound n_max n_init h).n) ∧
    (doubling_integrate tol est bound n_max n_init h).bound
        = bound ((doubling_integrate tol est bound n_max n_init h).n) :=
  ⟨doubling_loop_exhausts tol bound n_max n_init h hle hall,
   doubling_loop_count_le tol bound n_max n_init h hle, rfl, rfl⟩

/-- Witness for C4: tolerance 0, constant certificate bound 1, budget 4,
initial count 1 -- the bound can never meet the tolerance. -/
theorem doubling_budget_exhaustion_witness :
    0 < 1 ∧ 1 ≤ 4 ∧
    ((doubling_integrate 0 est_w bound_w 4 1 one_pos).condition
        = Condition.toleranceNotAchieved ∧
      (doubling_integrate 0 est_w bound_w 4 1 one_pos).n ≤ 4 ∧
      (doubling_integrate 0 est_w bound_w 4 1 one_pos).solution
        = est_w ((doubling_integrate 0 est_w bound_w 4 1 one_pos).n) ∧
      (doubling_integrate 0 est_w bound_w 4 1 one_pos).bound
        = bound_w ((doubling_integrate 0 est_w bound_w 4 1 one_pos).n)) :=
  ⟨by decide, by decide,
   doubling_budget_exhaustion 0 est_w bound_w 4 1 one_pos (by decide)
     (fun m _ => one_pos)⟩

theorem sum_sq_dev (c : ℚ) (vs : List ℚ) :
    (vs.map (fun x => (x - c) ^ 2)).sum
      = (vs.map (fun x => x ^ 2)).sum - 2 * c * vs.sum + vs.length * c ^ 2 := by
  induction vs with
  | nil => simp
  | cons a t ih =>
    simp only [List.map_cons, List.sum_cons, List.length_cons, ih]
    push_cast
    ring

theorem fold_virgin_count (vs : List ℚ) :
    (MeanVarState.virgin.fold vs).n = vs.length := by
  simp [MeanVarState.fold, MeanVarState.virgin]

theorem fold_virgin_mean (vs : List ℚ) :
    (MeanVarState.virgin.fold vs).mean = qmean vs := by
  simp [MeanVarState.fold, MeanVarState.virgin, MeanVarState.mean, qmean]

theorem fold_virgin_variance (vs : List ℚ) (h : vs ≠ []) :
    (MeanVarState.virgin.fold vs).variance
      = (vs.map (fun x => (x - qmean vs) ^ 2)).sum / vs.length := by
  have hn : (vs.length : ℚ) ≠ 0 := by
    have := List.length_pos.mpr h
    exact_mod_cast Nat.pos_iff_ne_zero.mp this
  simp only [MeanVarState.variance, MeanVarState.fold, MeanVarState.virgin,
    Nat.zero_add, zero_add, sum_sq_dev, qmean]
  field_simp
  ring

/-- Claim C3: folding a batch of values into the virgin accumulator and
applying the CLT error estimator yields exactly the certificate
(sample mean, inflate * z * std / sqrt n): the estimated value is the
batch's sample mean, and the bound is the configured inflation factor
times the configured standard-normal quantile times the batch's sample
standard deviation, divided by the square root of the count -- all
computed from the accumulator's count, sum and sum of squares. -/
theorem clt_certificate_formula (inflate z : ℚ) (vs : List ℚ) (h : vs ≠ []) :
    clt_certificate inflate z (MeanVarState.virgin.fold vs)
      = ((qmean vs : ℝ),
         (inflate : ℝ) * (z : ℝ)
           * Real.sqrt (((vs.map (fun x => (x - qmean vs) ^ 2)).sum / vs.length : ℚ))
           / Real.sqrt (vs.length : ℝ)) := by
  unfold clt_certificate clt_bound MeanVarState.std
  rw [fold_virgin_mean, fold_virgin_variance vs h, fold_virgin_count]

/-- Witness for C3 at the two-element batch with values 0 and 1 and
inflation and quantile both 1. -/
theorem clt_certificate_formula_witness :
    (([0, 1] : List ℚ) ≠ []) ∧
    clt_certificate 1 1 (MeanVarState.virgin.fold [0, 1])
      = ((qmean [0, 1] : ℝ),
         ((1 : ℚ) : ℝ) * ((1 : ℚ) : ℝ)
           * Real.sqrt (((([0, 1] : List ℚ).map (fun x => (x - qmean [0, 1]) ^ 2)).sum
               / (([0, 1] : List ℚ).length : ℚ) : ℚ))
           / Real.sqrt ((([0, 1] : List ℚ).length : ℕ) : ℝ)) :=
  ⟨by simp, clt_certificate_formula 1 1 [0, 1] (by simp)⟩

theorem pilot_values_small : pilot_values cfg_small vals_alt = [0, 1] := by
  simp [pilot_values, cfg_small, vals_alt, List.range_succ]

theorem clt_wanted_small_eval : clt_wanted cfg_small vals_alt = 25 := by
  have hq : ((cfg_small.inflate * cfg_small.z
      / clt_tol cfg_small (qmean (pilot_values cfg_small vals_alt))) ^ 2
      * qvar (pilot_values cfg_small vals_alt) : ℚ) = 25 := by
    rw [pilot_values_small]
    norm_num [cfg_small, clt_tol, qmean, qvar]
  unfold clt_wanted
  rw [hq]
  norm_num
  decide

/-- Claim C2 counterexample: the CLT controller recorded in the demos is
not a doubling loop.  At a configuration with n_init 2, n_max 100,
absolute tolerance 1/10 (where the pilot certificate's bound exceeds the
tolerance and the count is far below n_max), the run's reported total is
27 samples -- not n_init times any power of two. -/
theorem clt_total_not_power_of_two :
    (CLT_integrate cfg_small vals_alt).n_total = 27 ∧
    ¬ ∃ k : ℕ, (CLT_integrate cfg_small vals_alt).n_total = cfg_small.n_init * 2 ^ k := by
  have h27 : (CLT_integrate cfg_small vals_alt).n_total = 27 := by
    show cfg_small.n_init + _ = 27
    rw [if_pos (by rw [clt_wanted_small_eval]; norm_num [cfg_small])]
    rw [clt_wanted_small_eval]
    decide
  refine ⟨h27, ?_⟩
  rintro ⟨k, hk⟩
  rw [h27] at hk
  have hni : cfg_small.n_init = 2 := rfl
  rw [hni] at hk
  generalize 2 ^ k = m at hk
  omega

/-- Claim C2 (amended): in every CLT-driven run whose computed follow-up
fits the budget, the controller performs exactly one additional sampling
stage after the pilot: it requests n = max(1, ceil((inflate * z / tol)^2
* variance)) ≥ 1 further samples, generates only the fresh indices from
n_init onward (never regenerating the pilot), reports the follow-up
batch's mean as the solution, totals n_total = n_init + n, and
converges -- the sample counts are not constrained to n_init times powers
of two. -/
theorem clt_single_stage (cfg : CLTConfig) (values : ℕ → ℚ)
    (hb : cfg.n_init + clt_wanted cfg values ≤ cfg.n_max) :
    (CLT_integrate cfg values).n = clt_wanted cfg values ∧
    1 ≤ (CLT_integrate cfg values).n ∧
    (CLT_integrate cfg values).n_total = cfg.n_init + clt_wanted cfg values ∧
    (CLT_integrate cfg values).solution
      = qmean ((List.range (clt_wanted cfg values)).map (fun k => values (cfg.n_init + k))) ∧
    (CLT_integrate cfg values).condition = Condition.converged := by
  have hn : (CLT_integrate cfg values).n = clt_wanted cfg values := by
    show (if _ ≤ _ then _ else _) = _
    rw [if_pos hb]
  refine ⟨hn, ?_, ?_, ?_, ?_⟩
  · rw [hn]; exact le_max_left 1 _
  · show cfg.n_init + _ = _
    rw [if_pos hb]
  · show qmean _ = qmean _
    rw [if_pos hb]
  · show (if _ ≤ _ then Condition.converged else _) = _
    rw [if_pos hb]

/-- Witness for C2 (amended) at the small concrete configuration and
the alternating value stream. -/
theorem clt_single_stage_witness :
    cfg_small.n_init + clt_wanted cfg_small vals_alt ≤ cfg_small.n_max ∧
    ((CLT_integrate cfg_small vals_alt).n = clt_wanted cfg_small vals_alt ∧
      1 ≤ (CLT_integrate cfg_small vals_alt).n ∧
      (CLT_integrate cfg_small vals_alt).n_total
        = cfg_small.n_init + clt_wanted cfg_small vals_alt ∧
      (CLT_integrate cfg_small vals_alt).solution
        = qmean ((List.range (clt_wanted cfg_small vals_alt)).map
            (fun k => vals_alt (cfg_small.n_init + k))) ∧
      (CLT_integrate cfg_small vals_alt).condition = Condition.converged) :=
  ⟨by rw [clt_wanted_small_eval]; norm_num [cfg_small],
   clt_single_stage cfg_small vals_alt
     (by rw [clt_wanted_small_eval]; norm_num [cfg_small])⟩

/-- Claim C10: every CLT run's reported confidence interval is the
reported solution plus or minus the computed error bound, so the
solution is the interval's midpoint and lies inside the interval
(given the configured inflation factor and quantile are nonnegative). -/
theorem clt_solution_in_interval (cfg : CLTConfig) (values : ℕ → ℚ)
    (hi : 0 ≤ cfg.inflate) (hz : 0 ≤ cfg.z) :
    (CLT_integrate cfg values).confid_lo cfg
        = ((CLT_integrate cfg values).solution : ℝ)
          - (CLT_integrate cfg values).err_bar cfg ∧
    (CLT_integrate cfg values).confid_hi cfg
        = ((CLT_integrate cfg values).solution : ℝ)
          + (CLT_integrate cfg values).err_bar cfg ∧
    ((CLT_integrate cfg values).solution : ℝ)
        = ((CLT_integrate cfg values).confid_lo cfg
            + (CLT_integrate cfg values).confid_hi cfg) / 2 ∧
    (CLT_integrate cfg values).confid_lo cfg
        ≤ ((CLT_integrate cfg values).solution : ℝ) ∧
    ((CLT_integrate cfg values).solution : ℝ)
        ≤ (CLT_integrate cfg values).confid_hi cfg := by
  have hbar : 0 ≤ (CLT_integrate cfg values).err_bar cfg := by
    unfold CLTRun.err_bar
    apply div_nonneg _ (Real.sqrt_nonneg _)
    apply mul_nonneg _ (Real.sqrt_nonneg _)
    apply mul_nonneg
    · exact_mod_cast hi
    · exact_mod_cast hz
  refine ⟨rfl, rfl, ?_, ?_, ?_⟩
  · unfold CLTRun.confid_lo CLTRun.confid_hi
    ring
  · unfold CLTRun.confid_lo
    linarith
  · unfold CLTRun.confid_hi
    linarith

/-- Witness for C10 at the small concrete configuration and the
alternating value stream. -/
theorem clt_solution_in_interval_witness :
    0 ≤ cfg_small.inflate ∧ 0 ≤ cfg_small.z ∧
    ((CLT_integrate cfg_small vals_alt).confid_lo cfg_small
        = ((CLT_integrate cfg_small vals_alt).solution : ℝ)
          - (CLT_integrate cfg_small vals_alt).err_bar cfg_small ∧
      (CLT_integrate cfg_small vals_alt).confid_hi cfg_small
        = ((CLT_integrate cfg_small vals_alt).solution : ℝ)
          + (CLT_integrate cfg_small vals_alt).err_bar cfg_small ∧
      ((CLT_integrate cfg_small vals_alt).solution : ℝ)
        = ((CLT_integrate cfg_small vals_alt).confid_lo cfg_small
            + (CLT_integrate cfg_small vals_alt).confid_hi cfg_small) / 2 ∧
      (CLT_integrate cfg_small vals_alt).confid_lo cfg_small
        ≤ ((CLT_integrate cfg_small vals_alt).solution : ℝ) ∧
      ((CLT_integrate cfg_small vals_alt).solution : ℝ)
        ≤ (CLT_integrate cfg_small vals_alt).confid_hi cfg_small) :=
  ⟨by norm_num [cfg_small], by norm_num [cfg_small],
   clt_solution_in_interval cfg_small vals_alt
     (by norm_num [cfg_small]) (by norm_num [cfg_small])⟩

end QMCPy

